import Mathlib

/-!
Verification of the hexapod kinematics-and-gait engine specification.

The repository ships the Qt UI layer (`Simulation/ui.py`); the engine itself
(`models.Hexapod`, `constant`) is consumed by that layer.  The engine is
embedded here from the specification: every definition whose doc comment
starts with "Modelled from the spec:" renders the corresponding contract of
the specification in Lean, with real numbers standing for the floating-point
values of the implementation.
-/

set_option maxHeartbeats 1000000

noncomputable section

namespace Hexa

/-! Data model and engine operations, embedded from the specification. -/

/-- A point of real 3-space, the coordinate type of the engine. -/
@[ext]
structure Point3 where
  x : ℝ
  y : ℝ
  z : ℝ

/-- Modelled from the spec: `LegSegmentLengths`, the shared coxa/femur/tibia
segment lengths (models.py is not part of the sources). -/
structure Lengths where
  coxa : ℝ
  femur : ℝ
  tibia : ℝ

/-- Joint angles of one leg: coxa yaw `alpha`, femur pitch `beta`, tibia
pitch `gamma` (relative to the femur). -/
@[ext]
structure LegAngles where
  alpha : ℝ
  beta : ℝ
  gamma : ℝ

/-- Two-argument arctangent: the polar angle of the planar vector `(x, y)`,
realised as the complex argument, with the standard range `(-π, π]`. -/
def atan2 (y x : ℝ) : ℝ := Complex.arg ⟨x, y⟩

/-- Modelled from the spec: `horizontalReach = sqrt(x² + y²) − coxaLength`
in the single-leg analytic solve of §4.3 (models.py is not part of the
sources). -/
def horizontalReach (L : Lengths) (p : Point3) : ℝ :=
  Real.sqrt (p.x ^ 2 + p.y ^ 2) - L.coxa

/-- Modelled from the spec: `planarDistance = sqrt(horizontalReach² +
verticalDrop²)` with `verticalDrop = z` (§4.3). -/
def planarDistance (L : Lengths) (p : Point3) : ℝ :=
  Real.sqrt (horizontalReach L p ^ 2 + p.z ^ 2)

/-- Modelled from the spec: the reachability test of §4.3 — the target is
unreachable when `planarDistance` leaves the annulus
`[|femur − tibia|, femur + tibia]`. -/
def outOfReach (L : Lengths) (d : ℝ) : Prop :=
  L.femur + L.tibia < d ∨ d < |L.femur - L.tibia|

/-- Modelled from the spec: the `IkUnreachable` condition surfaced by the
single-leg solve for a given local target. -/
def legIkUnreachable (L : Lengths) (p : Point3) : Prop :=
  outOfReach L (planarDistance L p)

/-- Modelled from the spec: clamp `planarDistance` to the nearest bound of
the reachable annulus before solving (§4.3). -/
def clampPD (L : Lengths) (d : ℝ) : ℝ :=
  if L.femur + L.tibia < d then L.femur + L.tibia
  else if d < |L.femur - L.tibia| then |L.femur - L.tibia|
  else d

/-- Cosine of the femur elevation relative to the target line, by the law of
cosines on the triangle (femur, tibia, planar distance). -/
def cosBetaArg (L : Lengths) (d : ℝ) : ℝ :=
  (L.femur ^ 2 + d ^ 2 - L.tibia ^ 2) / (2 * L.femur * d)

/-- Cosine of the interior knee angle, by the law of cosines. -/
def cosGammaArg (L : Lengths) (d : ℝ) : ℝ :=
  (L.femur ^ 2 + L.tibia ^ 2 - d ^ 2) / (2 * L.femur * L.tibia)

/-- Modelled from the spec: the single-leg 3-DOF analytic inverse-kinematics
solve of §4.3 — `alpha = atan2(y, x)`, then the knee-down law-of-cosines
solution for `beta` and `gamma` at the clamped planar distance (models.py is
not part of the sources). -/
def solveLegIK (L : Lengths) (p : Point3) : LegAngles :=
  let hr := horizontalReach L p
  let d := clampPD L (planarDistance L p)
  { alpha := atan2 p.y p.x
    beta := atan2 p.z hr + Real.arccos (cosBetaArg L d)
    gamma := Real.arccos (cosGammaArg L d) - Real.pi }

/-- Modelled from the spec: forward kinematics of one leg in its mount-local
frame (§4.2) — yaw by `alpha`, femur pitched by `beta`, tibia pitched by
`gamma` relative to the femur. -/
def legFK (L : Lengths) (a : LegAngles) : Point3 :=
  { x := (L.coxa + L.femur * Real.cos a.beta
      + L.tibia * Real.cos (a.beta + a.gamma)) * Real.cos a.alpha
    y := (L.coxa + L.femur * Real.cos a.beta
      + L.tibia * Real.cos (a.beta + a.gamma)) * Real.sin a.alpha
    z := L.femur * Real.sin a.beta + L.tibia * Real.sin (a.beta + a.gamma) }

/-- The coxa-femur joint of the chain in the mount-local frame. -/
def coxaJoint (L : Lengths) (a : LegAngles) : Point3 :=
  { x := L.coxa * Real.cos a.alpha
    y := L.coxa * Real.sin a.alpha
    z := 0 }

/-- Euclidean distance between two points. -/
def dist3 (p q : Point3) : ℝ :=
  Real.sqrt ((p.x - q.x) ^ 2 + (p.y - q.y) ^ 2 + (p.z - q.z) ^ 2)

/-- Coordinatewise sum of points. -/
def ptAdd (p q : Point3) : Point3 := ⟨p.x + q.x, p.y + q.y, p.z + q.z⟩

/-- Coordinatewise difference of points. -/
def ptSub (p q : Point3) : Point3 := ⟨p.x - q.x, p.y - q.y, p.z - q.z⟩

/-- Rotation about the x-axis (roll). -/
def rotX (t : ℝ) (p : Point3) : Point3 :=
  ⟨p.x, Real.cos t * p.y - Real.sin t * p.z, Real.sin t * p.y + Real.cos t * p.z⟩

/-- Rotation about the y-axis (pitch). -/
def rotY (t : ℝ) (p : Point3) : Point3 :=
  ⟨Real.cos t * p.x + Real.sin t * p.z, p.y, -(Real.sin t) * p.x + Real.cos t * p.z⟩

/-- Rotation about the z-axis (yaw). -/
def rotZ (t : ℝ) (p : Point3) : Point3 :=
  ⟨Real.cos t * p.x - Real.sin t * p.y, Real.sin t * p.x + Real.cos t * p.y, p.z⟩

/-- Modelled from the spec: the requested rigid body pose — rotation (roll,
pitch, yaw) composed as `Rz · Ry · Rx`, followed by the translation. -/
def bodyT (rot trans : Point3) (p : Point3) : Point3 :=
  ptAdd (rotZ rot.z (rotY rot.y (rotX rot.x p))) trans

/-- Inverse of the requested body pose. -/
def bodyTInv (rot trans : Point3) (p : Point3) : Point3 :=
  rotX (-rot.x) (rotY (-rot.y) (rotZ (-rot.z) (ptSub p trans)))

/-- Modelled from the spec: `BodyFrame` dimensions front `f`, middle `m`,
side `s`. -/
structure BodyDims where
  f : ℝ
  m : ℝ
  s : ℝ

/-- Modelled from the spec: engine error kinds of §7 (models.py is not part
of the sources). -/
inductive EngineError
  | InvalidDimension
  | InvalidGaitParameters
  | IkUnreachable
  | MalformedInput
deriving DecidableEq

/-- Modelled from the spec: the `Hexapod` aggregate root — one `BodyFrame`,
one `LegSegmentLengths`, six `LegState` angle triples, the optional
`WalkingSequence` and the playback cursor (models.py is not part of the
sources). -/
structure Hexapod where
  dims : BodyDims
  lengths : Lengths
  legs : Fin 6 → LegAngles
  walking : Option (Fin 6 → List LegAngles)
  cursor : ℕ

/-- Modelled from the spec: the six leg mount positions derived from the
body dimensions — front/middle/back pairs mirrored left/right (§4.1). -/
def mountPos (d : BodyDims) : Fin 6 → Point3 :=
  ![⟨d.m, 0, 0⟩, ⟨d.f, d.s, 0⟩, ⟨-d.f, d.s, 0⟩, ⟨-d.m, 0, 0⟩, ⟨-d.f, -d.s, 0⟩, ⟨d.f, -d.s, 0⟩]

/-- Modelled from the spec: the fixed yaw of each leg mount frame. -/
def mountYaw : Fin 6 → ℝ :=
  ![0, Real.pi / 4, 3 * Real.pi / 4, Real.pi, -(3 * Real.pi) / 4, -(Real.pi) / 4]

/-- Modelled from the spec: the body outline vertices derived from the
dimensions (§4.1), a pure function of `(f, m, s)`. -/
def bodyVertices (d : BodyDims) : List Point3 :=
  [⟨d.m, 0, 0⟩, ⟨d.f, d.s, 0⟩, ⟨-d.f, d.s, 0⟩, ⟨-d.m, 0, 0⟩, ⟨-d.f, -d.s, 0⟩, ⟨d.f, -d.s, 0⟩]

/-- Modelled from the spec: the head point of the body outline. -/
def bodyHead (d : BodyDims) : Point3 := ⟨0, d.s, 0⟩

/-- Mount-local point expressed in world coordinates under the requested
body pose: the mount offset and yaw, then the body transform. -/
def mountToWorld (rot trans : Point3) (mp : Point3) (my : ℝ) (p : Point3) : Point3 :=
  bodyT rot trans (ptAdd mp (rotZ my p))

/-- World point expressed in the mount-local frame under the requested body
pose: the inverse of `mountToWorld`. -/
def worldToMountLocal (rot trans : Point3) (mp : Point3) (my : ℝ) (p : Point3) : Point3 :=
  rotZ (-my) (ptSub (bodyTInv rot trans p) mp)

/-- Modelled from the spec: the current ground-contact (anchor) position of
a leg — the foot tip of its forward kinematics at the neutral body pose. -/
def anchor (st : Hexapod) (l : Fin 6) : Point3 :=
  ptAdd (mountPos st.dims l) (rotZ (mountYaw l) (legFK st.lengths (st.legs l)))

/-- Modelled from the spec: the anchor of a leg expressed in the new
mount-local frame obtained by applying the requested rotation and
translation to the body pose (§4.3). -/
def ikLocalTarget (st : Hexapod) (rot trans : Point3) (l : Fin 6) : Point3 :=
  worldToMountLocal rot trans (mountPos st.dims l) (mountYaw l) (anchor st l)

/-- Modelled from the spec: the per-leg angles computed by the body-pose IK
solver — each leg's local anchor target fed to the single-leg solve. -/
def solveIKAngles (st : Hexapod) (rot trans : Point3) : Fin 6 → LegAngles :=
  fun l => solveLegIK st.lengths (ikLocalTarget st rot trans l)

/-- Foot-tip world position of a leg under the requested body pose, from
given joint angles. -/
def footWorld (st : Hexapod) (rot trans : Point3) (l : Fin 6) (a : LegAngles) : Point3 :=
  mountToWorld rot trans (mountPos st.dims l) (mountYaw l) (legFK st.lengths a)

/-- Modelled from the spec: `GaitType ∈ {Tripod, Ripple}`. -/
inductive GaitType
  | Tripod
  | Ripple
deriving DecidableEq

/-- Modelled from the spec: `GaitParameters` as assembled by the UI —
`Direction` is the sign `1` (forward) or `-1` (backward), `Rotation` the
rotate-in-place flag (models.py is not part of the sources). -/
structure GaitParameters where
  HipSwing : ℝ
  LiftSwing : ℝ
  StepNum : ℕ
  Speed : ℝ
  Gait : GaitType
  Direction : ℤ
  Rotation : Bool

/-- Modelled from the spec: two phase groups for Tripod, six for Ripple. -/
def phaseGroups : GaitType → ℕ
  | GaitType.Tripod => 2
  | GaitType.Ripple => 6

/-- Modelled from the spec: the full cycle length `StepNum × phaseGroups`. -/
def seqLen (p : GaitParameters) : ℕ := p.StepNum * phaseGroups p.Gait

/-- Modelled from the spec: duration of the stance sub-phase — the
stance : swing ratio is `(phaseGroups − 1) : 1`, i.e. 1:1 for Tripod and
5:1 for Ripple. -/
def stanceLen (p : GaitParameters) : ℕ := p.StepNum * (phaseGroups p.Gait - 1)

/-- Modelled from the spec: per-leg phase offset — Tripod groups legs into
the alternating triads {0,2,4} and {1,3,5}; Ripple offsets each leg by one
sixth of a cycle. -/
def legOffset (p : GaitParameters) (l : Fin 6) : ℕ :=
  match p.Gait with
  | GaitType.Tripod => l.val % 2 * p.StepNum
  | GaitType.Ripple => l.val * p.StepNum

/-- Position of sample `i` inside the leg's own phase window. -/
def localPhase (p : GaitParameters) (l : Fin 6) (i : ℕ) : ℕ :=
  (i + (seqLen p - legOffset p l)) % seqLen p

/-- Modelled from the spec: the leg is in its stance sub-phase (the first
`stanceLen` samples of its own phase window). -/
def isStance (p : GaitParameters) (l : Fin 6) (i : ℕ) : Bool :=
  localPhase p l i < stanceLen p

/-- Modelled from the spec: the leg is in its swing sub-phase (the last
`StepNum` samples of its own phase window). -/
def isSwing (p : GaitParameters) (l : Fin 6) (i : ℕ) : Bool :=
  stanceLen p ≤ localPhase p l i

/-- Modelled from the spec: left-side legs, mirrored from the right side. -/
def isLeftLeg (l : Fin 6) : Bool := l.val = 2 ∨ l.val = 3 ∨ l.val = 4

/-- Modelled from the spec: `RotateInPlace` negates the hip-sweep sign for
left-side legs relative to right-side legs. -/
def rotSign (p : GaitParameters) (l : Fin 6) : ℝ :=
  if p.Rotation && isLeftLeg l then -1 else 1

/-- Modelled from the spec: the raw hip-sweep trajectory of one leg before
the direction and rotation signs — a linear sweep from `+HipSwing` to
`-HipSwing` during stance and linearly back during swing. -/
def baseSweep (p : GaitParameters) (l : Fin 6) (i : ℕ) : ℝ :=
  let τ := localPhase p l i
  if τ < stanceLen p then
    p.HipSwing * (1 - 2 * (τ : ℝ) / (stanceLen p : ℝ))
  else
    p.HipSwing * (2 * ((τ : ℝ) - (stanceLen p : ℝ)) / (p.StepNum : ℝ) - 1)

/-- Modelled from the spec: the hip-sweep trajectory sample — the raw sweep
multiplied by the direction sign and the rotate-in-place side sign. -/
def hipSweepVal (p : GaitParameters) (l : Fin 6) (i : ℕ) : ℝ :=
  (p.Direction : ℝ) * rotSign p l * baseSweep p l i

/-- Modelled from the spec: the lift (height) trajectory sample — zero in
stance, a half-sine of amplitude `LiftSwing` over the swing sub-phase. -/
def liftVal (p : GaitParameters) (l : Fin 6) (i : ℕ) : ℝ :=
  if stanceLen p ≤ localPhase p l i then
    p.LiftSwing
      * Real.sin (Real.pi * ((localPhase p l i : ℝ) - (stanceLen p : ℝ)) / (p.StepNum : ℝ))
  else 0

/-- Modelled from the spec: the `Direction`-reversed copy of a parameter
set. -/
def reverseDirection (p : GaitParameters) : GaitParameters :=
  { p with Direction := -p.Direction }

/-- Modelled from the spec: the neutral stance foot position of a leg in
its mount-local frame. -/
def neutralFoot (L : Lengths) : Point3 := legFK L ⟨0, 0, 0⟩

/-- Modelled from the spec: the local foot target of a gait sample — the
hip sweep applied as a yaw about the mount, the lift added to the height,
relative to the neutral stance foot position (§4.4). -/
def gaitTarget (p : GaitParameters) (L : Lengths) (l : Fin 6) (i : ℕ) : Point3 :=
  ptAdd (rotZ (hipSweepVal p l i * Real.pi / 180) (neutralFoot L)) ⟨0, 0, liftVal p l i⟩

/-- Modelled from the spec: the generated walking sequence of one leg — one
full cycle of joint-angle triples, each obtained by the single-leg solve of
the sample's local foot target (§4.4). -/
def walkingSeq (p : GaitParameters) (L : Lengths) (l : Fin 6) : List LegAngles :=
  (List.range (seqLen p)).map fun i => solveLegIK L (gaitTarget p L l i)

/-- Modelled from the spec: validity of a gait parameter set — `StepNum ≥ 1`,
`Speed > 0`, and `HipSwing`/`LiftSwing` inside their configured slider
bounds `[10, 40]` (§4.4). -/
def validGait (p : GaitParameters) : Prop :=
  1 ≤ p.StepNum ∧ 0 < p.Speed ∧ 10 ≤ p.HipSwing ∧ p.HipSwing ≤ 40
    ∧ 10 ≤ p.LiftSwing ∧ p.LiftSwing ≤ 40

instance (p : GaitParameters) : Decidable (validGait p) := by
  unfold validGait
  infer_instance

/-- Modelled from the spec: a raw scalar input as received from outside the
engine — either a finite value or a non-finite one (the `MalformedInput`
case of §7). -/
inductive NumVal
  | fin (v : ℝ)
  | nonfinite
deriving DecidableEq

/-- The finite value carried, defaulting to 0. -/
def NumVal.val : NumVal → ℝ
  | NumVal.fin v => v
  | NumVal.nonfinite => 0

/-- Whether the raw scalar is finite. -/
def NumVal.isFin : NumVal → Bool
  | NumVal.fin _ => true
  | NumVal.nonfinite => false

/-- Raw rotation/translation request for `solveIK`, component by component. -/
structure IkRaw where
  rx : NumVal
  ry : NumVal
  rz : NumVal
  tx : NumVal
  ty : NumVal
  tz : NumVal

/-- All six components are finite. -/
def IkRaw.wellFormed (r : IkRaw) : Bool :=
  r.rx.isFin && r.ry.isFin && r.rz.isFin && r.tx.isFin && r.ty.isFin && r.tz.isFin

/-- The rotation carried by a raw request. -/
def IkRaw.rot (r : IkRaw) : Point3 := ⟨r.rx.val, r.ry.val, r.rz.val⟩

/-- The translation carried by a raw request. -/
def IkRaw.trans (r : IkRaw) : Point3 := ⟨r.tx.val, r.ty.val, r.tz.val⟩

/-- Modelled from the spec: `solveIK` — checks the inputs, then commits the
six per-leg solutions atomically; on malformed input the call fails as a
whole and the prior state is preserved (§4.3, §7). -/
def solve_ik (st : Hexapod) (r : IkRaw) : Hexapod × Option EngineError :=
  if r.wellFormed = true then
    ({ st with legs := solveIKAngles st r.rot r.trans }, none)
  else
    (st, some EngineError.MalformedInput)

/-- Modelled from the spec: a dimension value is valid when it lies in the
slider range `[1, 20]`. -/
def validDim (v : ℝ) : Prop := 1 ≤ v ∧ v ≤ 20

instance (v : ℝ) : Decidable (validDim v) := by
  unfold validDim
  infer_instance

/-- Modelled from the spec: `updateDimensions(front, middle, side, coxa,
femur, tibia) → bool` — false on invalid range with state unchanged,
otherwise commits the new dimensions (§6). -/
def update_dimensions (st : Hexapod) (f m s c fe t : ℝ) : Hexapod × Bool :=
  if validDim f ∧ validDim m ∧ validDim s ∧ validDim c ∧ validDim fe ∧ validDim t then
    ({ st with dims := ⟨f, m, s⟩, lengths := ⟨c, fe, t⟩ }, true)
  else
    (st, false)

/-- Modelled from the spec: a joint angle is valid when it lies in the
slider range `[-180, 180]`. -/
def validAngle (v : ℝ) : Prop := -180 ≤ v ∧ v ≤ 180

instance (v : ℝ) : Decidable (validAngle v) := by
  unfold validAngle
  infer_instance

/-- Modelled from the spec: `updateLegPattern(alpha, beta, gamma)` — applies
one angle triple uniformly to all six legs, returning a success indicator
(§6, §9); invalid input is rejected with the prior state preserved. -/
def update_leg_pattern (st : Hexapod) (a b c : ℝ) : Hexapod × Bool :=
  if validAngle a ∧ validAngle b ∧ validAngle c then
    ({ st with legs := fun _ => ⟨a, b, c⟩ }, true)
  else
    (st, false)

/-- Modelled from the spec: `generateWalkingSequence(params)` — fails with
`InvalidGaitParameters` on an invalid parameter set leaving prior state
unchanged; otherwise replaces any prior sequence and resets the cursor
(§4.4, §6). -/
def generate_walking_sequence (st : Hexapod) (p : GaitParameters) :
    Hexapod × Option EngineError :=
  if validGait p then
    ({ st with walking := some (walkingSeq p st.lengths), cursor := 0 }, none)
  else
    (st, some EngineError.InvalidGaitParameters)

/-- Modelled from the spec: `setPoseFromSequence(t)` — applies frame
`t mod length` to every leg, a no-op when no sequence exists (§4.5, §6). -/
def set_pose_from_walking_sequence (st : Hexapod) (t : ℕ) : Hexapod :=
  match st.walking with
  | none => st
  | some ws => { st with legs := fun l => (ws l).getD (t % (ws l).length) (st.legs l) }

/-- Modelled from the spec: the default-constructed Hexapod (neutral stance,
default dimensions). -/
def initHexapod : Hexapod :=
  { dims := ⟨3, 4, 3⟩
    lengths := ⟨2, 4, 5⟩
    legs := fun _ => ⟨0, 0, 0⟩
    walking := none
    cursor := 0 }

/-- Modelled from the spec: the UI's default gait parameter set with the
example values StepNum = 10, Tripod, Forward. -/
def exampleTripodParams : GaitParameters :=
  { HipSwing := 12, LiftSwing := 20, StepNum := 10, Speed := 10,
    Gait := GaitType.Tripod, Direction := 1, Rotation := false }

/-- A valid Ripple parameter set used for concrete instantiations. -/
def exampleRippleParams : GaitParameters :=
  { HipSwing := 12, LiftSwing := 20, StepNum := 10, Speed := 10,
    Gait := GaitType.Ripple, Direction := 1, Rotation := false }

/-- An invalid parameter set: StepNum = 0. -/
def exampleBadGaitParams : GaitParameters :=
  { HipSwing := 12, LiftSwing := 20, StepNum := 0, Speed := 10,
    Gait := GaitType.Tripod, Direction := 1, Rotation := false }

/-- A concrete two-frame walking sequence. -/
def exampleWS : Fin 6 → List LegAngles := fun _ => [⟨1, 2, 3⟩, ⟨4, 5, 6⟩]

/-- A state holding the concrete walking sequence. -/
def exampleSeqState : Hexapod := { initHexapod with walking := some exampleWS }

/-- A malformed IK request: one non-finite component. -/
def exampleBadRaw : IkRaw :=
  ⟨NumVal.nonfinite, NumVal.fin 0, NumVal.fin 0, NumVal.fin 0, NumVal.fin 0, NumVal.fin 0⟩

/-- A well-formed IK request. -/
def exampleGoodRaw : IkRaw :=
  ⟨NumVal.fin 0, NumVal.fin 0, NumVal.fin 0, NumVal.fin 0, NumVal.fin 0, NumVal.fin 0⟩

/-! Lemmas and claim theorems. -/

lemma clampPD_mem (L : Lengths) (d : ℝ) (hF : 0 < L.femur) (hT : 0 < L.tibia) :
    |L.femur - L.tibia| ≤ clampPD L d ∧ clampPD L d ≤ L.femur + L.tibia := by
  have habs : |L.femur - L.tibia| ≤ L.femur + L.tibia := by
    rcases abs_cases (L.femur - L.tibia) with h | h <;> rw [h.1] <;> linarith
  unfold clampPD
  split_ifs with h1 h2
  · exact ⟨habs, le_refl _⟩
  · exact ⟨le_refl _, habs⟩
  · exact ⟨not_lt.mp h2, not_lt.mp h1⟩

lemma cosBetaArg_bounds (L : Lengths) (d : ℝ) (hF : 0 < L.femur) (hT : 0 < L.tibia)
    (hd : 0 < d) (hlo : |L.femur - L.tibia| ≤ d) (hhi : d ≤ L.femur + L.tibia) :
    -1 ≤ cosBetaArg L d ∧ cosBetaArg L d ≤ 1 := by
  have h1 : L.femur - L.tibia ≤ d := le_trans (le_abs_self _) hlo
  have h2 : L.tibia - L.femur ≤ d := by
    calc L.tibia - L.femur ≤ |L.femur - L.tibia| := by
          rw [abs_sub_comm]; exact le_abs_self _
      _ ≤ d := hlo
  have hden : 0 < 2 * L.femur * d := by positivity
  constructor
  · rw [cosBetaArg, le_div_iff hden]
    nlinarith [mul_nonneg (by linarith : (0:ℝ) ≤ L.tibia + (L.femur + d))
      (by linarith : (0:ℝ) ≤ L.femur + d - L.tibia)]
  · rw [cosBetaArg, div_le_one hden]
    nlinarith [mul_nonneg (by linarith : (0:ℝ) ≤ L.tibia + (L.femur - d))
      (by linarith : (0:ℝ) ≤ L.tibia - (L.femur - d))]

lemma cosGammaArg_bounds (L : Lengths) (d : ℝ) (hF : 0 < L.femur) (hT : 0 < L.tibia)
    (hd : 0 ≤ d) (hlo : |L.femur - L.tibia| ≤ d) (hhi : d ≤ L.femur + L.tibia) :
    -1 ≤ cosGammaArg L d ∧ cosGammaArg L d ≤ 1 := by
  have h1 : L.femur - L.tibia ≤ d := le_trans (le_abs_self _) hlo
  have h2 : L.tibia - L.femur ≤ d := by
    calc L.tibia - L.femur ≤ |L.femur - L.tibia| := by
          rw [abs_sub_comm]; exact le_abs_self _
      _ ≤ d := hlo
  have hden : 0 < 2 * L.femur * L.tibia := by positivity
  constructor
  · rw [cosGammaArg, le_div_iff hden]
    nlinarith
  · rw [cosGammaArg, div_le_one hden]
    nlinarith [mul_nonneg (by linarith : (0:ℝ) ≤ d + (L.femur - L.tibia))
      (by linarith : (0:ℝ) ≤ d - (L.femur - L.tibia))]

lemma sin_relation (L : Lengths) (d : ℝ) (hF : 0 < L.femur) (hT : 0 < L.tibia)
    (hd : 0 < d) :
    d * Real.sqrt (1 - cosBetaArg L d ^ 2) = L.tibia * Real.sqrt (1 - cosGammaArg L d ^ 2) := by
  have e1 : d * Real.sqrt (1 - cosBetaArg L d ^ 2)
      = Real.sqrt (d ^ 2 * (1 - cosBetaArg L d ^ 2)) := by
    rw [Real.sqrt_mul (sq_nonneg d), Real.sqrt_sq hd.le]
  have e2 : L.tibia * Real.sqrt (1 - cosGammaArg L d ^ 2)
      = Real.sqrt (L.tibia ^ 2 * (1 - cosGammaArg L d ^ 2)) := by
    rw [Real.sqrt_mul (sq_nonneg L.tibia), Real.sqrt_sq hT.le]
  rw [e1, e2]
  congr 1
  rw [cosBetaArg, cosGammaArg]
  field_simp
  ring

lemma closure_sin (L : Lengths) (d : ℝ) (hF : 0 < L.femur) (hT : 0 < L.tibia)
    (hd0 : 0 ≤ d) (hlo : |L.femur - L.tibia| ≤ d) (hhi : d ≤ L.femur + L.tibia) :
    L.femur * Real.sin (Real.arccos (cosBetaArg L d))
      - L.tibia * Real.sin (Real.arccos (cosBetaArg L d) + Real.arccos (cosGammaArg L d)) = 0 := by
  rcases eq_or_lt_of_le hd0 with hd | hd
  · -- degenerate target at the coxa-femur joint: forces femur = tibia
    have hFT : L.femur = L.tibia := by
      have h0 : |L.femur - L.tibia| ≤ 0 := by rw [← hd] at hlo; exact hlo
      have := abs_nonpos_iff.mp (le_antisymm h0 (abs_nonneg _)).le
      linarith [sub_eq_zero.mp this]
    have hA : cosBetaArg L d = 0 := by
      rw [cosBetaArg, ← hd]; simp
    have hB : cosGammaArg L d = 1 := by
      rw [cosGammaArg, ← hd, hFT]
      field_simp
      ring
    rw [hA, hB, Real.arccos_zero, Real.arccos_one, add_zero, Real.sin_pi_div_two, hFT]
    ring
  · have hA := cosBetaArg_bounds L d hF hT hd hlo hhi
    have hB := cosGammaArg_bounds L d hF hT hd.le hlo hhi
    have hcosa : Real.cos (Real.arccos (cosBetaArg L d)) = cosBetaArg L d :=
      Real.cos_arccos hA.1 hA.2
    have hcosb : Real.cos (Real.arccos (cosGammaArg L d)) = cosGammaArg L d :=
      Real.cos_arccos hB.1 hB.2
    have hsina : Real.sin (Real.arccos (cosBetaArg L d))
        = Real.sqrt (1 - cosBetaArg L d ^ 2) := Real.sin_arccos _
    have hsinb : Real.sin (Real.arccos (cosGammaArg L d))
        = Real.sqrt (1 - cosGammaArg L d ^ 2) := Real.sin_arccos _
    have key := sin_relation L d hF hT hd
    have hFTB : L.femur - L.tibia * cosGammaArg L d = d * cosBetaArg L d := by
      rw [cosBetaArg, cosGammaArg]
      field_simp
      ring
    rw [Real.sin_add, hcosa, hcosb, hsina, hsinb]
    linear_combination Real.sqrt (1 - cosBetaArg L d ^ 2) * hFTB + cosBetaArg L d * key

lemma closure_cos (L : Lengths) (d : ℝ) (hF : 0 < L.femur) (hT : 0 < L.tibia)
    (hd0 : 0 ≤ d) (hlo : |L.femur - L.tibia| ≤ d) (hhi : d ≤ L.femur + L.tibia) :
    L.femur * Real.cos (Real.arccos (cosBetaArg L d))
      - L.tibia * Real.cos (Real.arccos (cosBetaArg L d) + Real.arccos (cosGammaArg L d)) = d := by
  rcases eq_or_lt_of_le hd0 with hd | hd
  · have hFT : L.femur = L.tibia := by
      have h0 : |L.femur - L.tibia| ≤ 0 := by rw [← hd] at hlo; exact hlo
      have := abs_nonpos_iff.mp (le_antisymm h0 (abs_nonneg _)).le
      linarith [sub_eq_zero.mp this]
    have hA : cosBetaArg L d = 0 := by
      rw [cosBetaArg, ← hd]; simp
    have hB : cosGammaArg L d = 1 := by
      rw [cosGammaArg, ← hd, hFT]
      field_simp
      ring
    rw [hA, hB, Real.arccos_zero, Real.arccos_one, add_zero, Real.cos_pi_div_two, ← hd]
    ring
  · have hA := cosBetaArg_bounds L d hF hT hd hlo hhi
    have hB := cosGammaArg_bounds L d hF hT hd.le hlo hhi
    have hsq : Real.sqrt (1 - cosBetaArg L d ^ 2) ^ 2 = 1 - cosBetaArg L d ^ 2 :=
      Real.sq_sqrt (by nlinarith [hA.1, hA.2])
    have hcosa : Real.cos (Real.arccos (cosBetaArg L d)) = cosBetaArg L d :=
      Real.cos_arccos hA.1 hA.2
    have hcosb : Real.cos (Real.arccos (cosGammaArg L d)) = cosGammaArg L d :=
      Real.cos_arccos hB.1 hB.2
    have hsina : Real.sin (Real.arccos (cosBetaArg L d))
        = Real.sqrt (1 - cosBetaArg L d ^ 2) := Real.sin_arccos _
    have hsinb : Real.sin (Real.arccos (cosGammaArg L d))
        = Real.sqrt (1 - cosGammaArg L d ^ 2) := Real.sin_arccos _
    have key := sin_relation L d hF hT hd
    have hFTB : L.femur - L.tibia * cosGammaArg L d = d * cosBetaArg L d := by
      rw [cosBetaArg, cosGammaArg]
      field_simp
      ring
    rw [Real.cos_add, hcosa, hcosb, hsina, hsinb]
    linear_combination cosBetaArg L d * hFTB
      - Real.sqrt (1 - cosBetaArg L d ^ 2) * key + d * hsq

lemma abs_mk_eq_sqrt (a b : ℝ) :
    Complex.abs ⟨a, b⟩ = Real.sqrt (a ^ 2 + b ^ 2) := by
  rw [Complex.abs_apply, Complex.normSq_mk]
  ring_nf

lemma planarDistance_nonneg (L : Lengths) (p : Point3) : 0 ≤ planarDistance L p :=
  Real.sqrt_nonneg _

lemma clampPD_of_reachable (L : Lengths) (d : ℝ)
    (hlo : |L.femur - L.tibia| ≤ d) (hhi : d ≤ L.femur + L.tibia) :
    clampPD L d = d := by
  rw [clampPD, if_neg (not_lt.mpr hhi), if_neg (not_lt.mpr hlo)]

/-- The knee-down solution closes the planar two-link chain: the femur plus
tibia segments land at the clamped planar distance along the direction of the
target, horizontally. -/
lemma fk_planar_part (L : Lengths) (p : Point3) (hF : 0 < L.femur) (hT : 0 < L.tibia) :
    L.femur * Real.cos (solveLegIK L p).beta
      + L.tibia * Real.cos ((solveLegIK L p).beta + (solveLegIK L p).gamma)
      = clampPD L (planarDistance L p) * Real.cos (atan2 p.z (horizontalReach L p)) := by
  have hmem := clampPD_mem L (planarDistance L p) hF hT
  have hd0 : 0 ≤ clampPD L (planarDistance L p) := le_trans (abs_nonneg _) hmem.1
  have hcos := closure_cos L (clampPD L (planarDistance L p)) hF hT hd0 hmem.1 hmem.2
  have hsin := closure_sin L (clampPD L (planarDistance L p)) hF hT hd0 hmem.1 hmem.2
  show L.femur * Real.cos (atan2 p.z (horizontalReach L p) + _)
      + L.tibia * Real.cos (atan2 p.z (horizontalReach L p) + _ + (_ - Real.pi)) = _
  rw [show ∀ x y z : ℝ, x + y + (z - Real.pi) = x + (y + z) - Real.pi by intros; ring]
  rw [Real.cos_sub, Real.cos_pi, Real.sin_pi, Real.cos_add (atan2 p.z (horizontalReach L p)),
    Real.cos_add (atan2 p.z (horizontalReach L p))]
  linear_combination Real.cos (atan2 p.z (horizontalReach L p)) * hcos
    - Real.sin (atan2 p.z (horizontalReach L p)) * hsin

/-- Vertical component of the knee-down solution. -/
lemma fk_vertical_part (L : Lengths) (p : Point3) (hF : 0 < L.femur) (hT : 0 < L.tibia) :
    L.femur * Real.sin (solveLegIK L p).beta
      + L.tibia * Real.sin ((solveLegIK L p).beta + (solveLegIK L p).gamma)
      = clampPD L (planarDistance L p) * Real.sin (atan2 p.z (horizontalReach L p)) := by
  have hmem := clampPD_mem L (planarDistance L p) hF hT
  have hd0 : 0 ≤ clampPD L (planarDistance L p) := le_trans (abs_nonneg _) hmem.1
  have hcos := closure_cos L (clampPD L (planarDistance L p)) hF hT hd0 hmem.1 hmem.2
  have hsin := closure_sin L (clampPD L (planarDistance L p)) hF hT hd0 hmem.1 hmem.2
  show L.femur * Real.sin (atan2 p.z (horizontalReach L p) + _)
      + L.tibia * Real.sin (atan2 p.z (horizontalReach L p) + _ + (_ - Real.pi)) = _
  rw [show ∀ x y z : ℝ, x + y + (z - Real.pi) = x + (y + z) - Real.pi by intros; ring]
  rw [Real.sin_sub, Real.cos_pi, Real.sin_pi, Real.sin_add (atan2 p.z (horizontalReach L p)),
    Real.sin_add (atan2 p.z (horizontalReach L p))]
  linear_combination Real.sin (atan2 p.z (horizontalReach L p)) * hcos
    + Real.cos (atan2 p.z (horizontalReach L p)) * hsin

/-- Round trip of the single-leg solve: for a target inside the reachable
annulus, forward kinematics of the knee-down solution reproduces the target
exactly. -/
theorem legFK_solveLegIK (L : Lengths) (p : Point3) (hF : 0 < L.femur) (hT : 0 < L.tibia)
    (hlo : |L.femur - L.tibia| ≤ planarDistance L p)
    (hhi : planarDistance L p ≤ L.femur + L.tibia) :
    legFK L (solveLegIK L p) = p := by
  have hclamp : clampPD L (planarDistance L p) = planarDistance L p :=
    clampPD_of_reachable L _ hlo hhi
  have habs1 : Complex.abs ⟨horizontalReach L p, p.z⟩ = planarDistance L p := by
    rw [abs_mk_eq_sqrt]; rfl
  have hcosφ : planarDistance L p * Real.cos (atan2 p.z (horizontalReach L p))
      = horizontalReach L p := by
    rw [← habs1]; exact Complex.abs_mul_cos_arg ⟨horizontalReach L p, p.z⟩
  have hsinφ : planarDistance L p * Real.sin (atan2 p.z (horizontalReach L p)) = p.z := by
    rw [← habs1]; exact Complex.abs_mul_sin_arg ⟨horizontalReach L p, p.z⟩
  have habs2 : Complex.abs ⟨p.x, p.y⟩ = Real.sqrt (p.x ^ 2 + p.y ^ 2) := abs_mk_eq_sqrt p.x p.y
  have hcosα : Real.sqrt (p.x ^ 2 + p.y ^ 2) * Real.cos (atan2 p.y p.x) = p.x := by
    rw [← habs2]; exact Complex.abs_mul_cos_arg ⟨p.x, p.y⟩
  have hsinα : Real.sqrt (p.x ^ 2 + p.y ^ 2) * Real.sin (atan2 p.y p.x) = p.y := by
    rw [← habs2]; exact Complex.abs_mul_sin_arg ⟨p.x, p.y⟩
  have hplanar := fk_planar_part L p hF hT
  have hvert := fk_vertical_part L p hF hT
  rw [hclamp, hcosφ] at hplanar
  rw [hclamp, hsinφ] at hvert
  have hreach : L.coxa + horizontalReach L p = Real.sqrt (p.x ^ 2 + p.y ^ 2) := by
    rw [horizontalReach]; ring
  have halpha : (solveLegIK L p).alpha = atan2 p.y p.x := rfl
  ext
  · show (L.coxa + L.femur * Real.cos (solveLegIK L p).beta
        + L.tibia * Real.cos ((solveLegIK L p).beta + (solveLegIK L p).gamma))
        * Real.cos (solveLegIK L p).alpha = p.x
    rw [halpha, show L.coxa + L.femur * Real.cos (solveLegIK L p).beta
        + L.tibia * Real.cos ((solveLegIK L p).beta + (solveLegIK L p).gamma)
        = L.coxa + horizontalReach L p by rw [← hplanar]; ring, hreach, hcosα]
  · show (L.coxa + L.femur * Real.cos (solveLegIK L p).beta
        + L.tibia * Real.cos ((solveLegIK L p).beta + (solveLegIK L p).gamma))
        * Real.sin (solveLegIK L p).alpha = p.y
    rw [halpha, show L.coxa + L.femur * Real.cos (solveLegIK L p).beta
        + L.tibia * Real.cos ((solveLegIK L p).beta + (solveLegIK L p).gamma)
        = L.coxa + horizontalReach L p by rw [← hplanar]; ring, hreach, hsinα]
  · show L.femur * Real.sin (solveLegIK L p).beta
        + L.tibia * Real.sin ((solveLegIK L p).beta + (solveLegIK L p).gamma) = p.z
    rw [hvert]

/-- The foot produced by the (possibly clamped) solve always sits at distance
exactly `clampPD (planarDistance)` from the coxa-femur joint. -/
theorem footDist_from_knee (L : Lengths) (p : Point3) (hF : 0 < L.femur) (hT : 0 < L.tibia) :
    dist3 (legFK L (solveLegIK L p)) (coxaJoint L (solveLegIK L p))
      = clampPD L (planarDistance L p) := by
  have hmem := clampPD_mem L (planarDistance L p) hF hT
  have hd0 : 0 ≤ clampPD L (planarDistance L p) := le_trans (abs_nonneg _) hmem.1
  have hplanar := fk_planar_part L p hF hT
  have hvert := fk_vertical_part L p hF hT
  set d := clampPD L (planarDistance L p)
  set φ := atan2 p.z (horizontalReach L p)
  set a := solveLegIK L p
  have h1 : Real.sin a.alpha ^ 2 + Real.cos a.alpha ^ 2 = 1 := Real.sin_sq_add_cos_sq _
  have h2 : Real.sin φ ^ 2 + Real.cos φ ^ 2 = 1 := Real.sin_sq_add_cos_sq _
  have hinner : (legFK L a).x - (coxaJoint L a).x = d * Real.cos φ * Real.cos a.alpha ∧
      (legFK L a).y - (coxaJoint L a).y = d * Real.cos φ * Real.sin a.alpha ∧
      (legFK L a).z - (coxaJoint L a).z = d * Real.sin φ := by
    refine ⟨?_, ?_, ?_⟩
    · show (L.coxa + L.femur * Real.cos a.beta + L.tibia * Real.cos (a.beta + a.gamma))
          * Real.cos a.alpha - L.coxa * Real.cos a.alpha = d * Real.cos φ * Real.cos a.alpha
      linear_combination Real.cos a.alpha * hplanar
    · show (L.coxa + L.femur * Real.cos a.beta + L.tibia * Real.cos (a.beta + a.gamma))
          * Real.sin a.alpha - L.coxa * Real.sin a.alpha = d * Real.cos φ * Real.sin a.alpha
      linear_combination Real.sin a.alpha * hplanar
    · show L.femur * Real.sin a.beta + L.tibia * Real.sin (a.beta + a.gamma) - 0
          = d * Real.sin φ
      linear_combination hvert
  rw [dist3, hinner.1, hinner.2.1, hinner.2.2]
  have : (d * Real.cos φ * Real.cos a.alpha) ^ 2 + (d * Real.cos φ * Real.sin a.alpha) ^ 2
      + (d * Real.sin φ) ^ 2 = d ^ 2 := by
    linear_combination (d ^ 2 * Real.cos φ ^ 2) * h1 + d ^ 2 * h2
  rw [this, Real.sqrt_sq hd0]

lemma rotX_neg_rotX (t : ℝ) (p : Point3) : rotX (-t) (rotX t p) = p := by
  have h := Real.sin_sq_add_cos_sq t
  ext
  · rfl
  · simp only [rotX, Real.cos_neg, Real.sin_neg]
    linear_combination p.y * h
  · simp only [rotX, Real.cos_neg, Real.sin_neg]
    linear_combination p.z * h

lemma rotY_neg_rotY (t : ℝ) (p : Point3) : rotY (-t) (rotY t p) = p := by
  have h := Real.sin_sq_add_cos_sq t
  ext
  · simp only [rotY, Real.cos_neg, Real.sin_neg]
    linear_combination p.x * h
  · rfl
  · simp only [rotY, Real.cos_neg, Real.sin_neg]
    linear_combination p.z * h

lemma rotZ_neg_rotZ (t : ℝ) (p : Point3) : rotZ (-t) (rotZ t p) = p := by
  have h := Real.sin_sq_add_cos_sq t
  ext
  · simp only [rotZ, Real.cos_neg, Real.sin_neg]
    linear_combination p.x * h
  · simp only [rotZ, Real.cos_neg, Real.sin_neg]
    linear_combination p.y * h
  · rfl

lemma rotX_rotX_neg (t : ℝ) (p : Point3) : rotX t (rotX (-t) p) = p := by
  have h := rotX_neg_rotX (-t) p
  rwa [neg_neg] at h

lemma rotY_rotY_neg (t : ℝ) (p : Point3) : rotY t (rotY (-t) p) = p := by
  have h := rotY_neg_rotY (-t) p
  rwa [neg_neg] at h

lemma rotZ_rotZ_neg (t : ℝ) (p : Point3) : rotZ t (rotZ (-t) p) = p := by
  have h := rotZ_neg_rotZ (-t) p
  rwa [neg_neg] at h

lemma ptAdd_ptSub (p q : Point3) : ptAdd (ptSub p q) q = p := by
  ext <;> simp [ptAdd, ptSub]

lemma bodyT_bodyTInv (rot trans p : Point3) : bodyT rot trans (bodyTInv rot trans p) = p := by
  rw [bodyT, bodyTInv, rotX_rotX_neg, rotY_rotY_neg, rotZ_rotZ_neg, ptAdd_ptSub]

lemma ptSub_ptAdd (p q : Point3) : ptSub (ptAdd p q) q = p := by
  ext <;> simp [ptAdd, ptSub]

lemma ptAdd_ptSub_cancel (p q : Point3) : ptAdd q (ptSub p q) = p := by
  ext <;> simp [ptAdd, ptSub]

lemma bodyTInv_bodyT (rot trans p : Point3) : bodyTInv rot trans (bodyT rot trans p) = p := by
  rw [bodyT, bodyTInv, ptSub_ptAdd, rotZ_neg_rotZ, rotY_neg_rotY, rotX_neg_rotX]

lemma mountToWorld_worldToMountLocal (rot trans mp : Point3) (my : ℝ) (p : Point3) :
    mountToWorld rot trans mp my (worldToMountLocal rot trans mp my p) = p := by
  rw [mountToWorld, worldToMountLocal, rotZ_rotZ_neg, ptAdd_ptSub_cancel, bodyT_bodyTInv]

lemma stance_iff_not_swing (p : GaitParameters) (l : Fin 6) (i : ℕ) :
    isStance p l i = true ↔ ¬ isSwing p l i = true := by
  simp only [isStance, isSwing, decide_eq_true_eq]
  omega

lemma mod_shift_lt (S u : ℕ) (hS : 1 ≤ S) (hu : u < 2 * S) :
    (u + S) % (2 * S) < S ↔ ¬ u < S := by
  rcases lt_or_ge u S with h | h
  · rw [Nat.mod_eq_of_lt (show u + S < 2 * S by omega)]
    omega
  · rw [Nat.mod_eq_sub_mod (show 2 * S ≤ u + S by omega)]
    have h2 : u + S - 2 * S = u - S := by omega
    rw [h2, Nat.mod_eq_of_lt (show u - S < 2 * S by omega)]
    omega

lemma tripod_stance_iff (p : GaitParameters) (hG : p.Gait = GaitType.Tripod)
    (hS : 1 ≤ p.StepNum) (l : Fin 6) (i : ℕ) :
    isStance p l i = true ↔ (l.val % 2 = 0 ↔ i % (2 * p.StepNum) < p.StepNum) := by
  have h2S : 0 < 2 * p.StepNum := by omega
  have hseq : seqLen p = 2 * p.StepNum := by
    simp [seqLen, hG, phaseGroups]
    omega
  have hst : stanceLen p = p.StepNum := by
    simp [stanceLen, hG, phaseGroups]
  rcases Nat.mod_two_eq_zero_or_one l.val with hl | hl
  · have hoff : legOffset p l = 0 := by simp [legOffset, hG, hl]
    have hlp : localPhase p l i = i % (2 * p.StepNum) := by
      rw [localPhase, hoff, hseq, Nat.sub_zero, Nat.add_mod_right]
    simp [isStance, hlp, hst, hl]
  · have hoff : legOffset p l = p.StepNum := by simp [legOffset, hG, hl]
    have hlp : localPhase p l i = (i % (2 * p.StepNum) + p.StepNum) % (2 * p.StepNum) := by
      rw [localPhase, hoff, hseq]
      have hsub : 2 * p.StepNum - p.StepNum = p.StepNum := by omega
      rw [hsub, Nat.add_mod i, Nat.mod_eq_of_lt (show p.StepNum < 2 * p.StepNum by omega)]
    have hu : i % (2 * p.StepNum) < 2 * p.StepNum := Nat.mod_lt _ h2S
    have hiff := mod_shift_lt p.StepNum (i % (2 * p.StepNum)) hS hu
    simp only [isStance, decide_eq_true_eq]
    rw [hlp, hst, hl, hiff]
    omega

lemma ripple_mod_char (S k r : ℕ) (hr : r < S) (hk : k < 12) :
    (k * S + r) % (6 * S) = k % 6 * S + r := by
  rcases lt_or_ge k 6 with h | h
  · have h1 : k * S ≤ 5 * S := Nat.mul_le_mul_right S (by omega)
    rw [Nat.mod_eq_of_lt (by omega), Nat.mod_eq_of_lt h]
  · have hsplit : k * S + r = (k - 6) * S + r + 6 * S := by
      have : (k - 6) * S + 6 * S = k * S := by
        rw [← Nat.add_mul, Nat.sub_add_cancel h]
      omega
    have h1 : (k - 6) * S ≤ 5 * S := Nat.mul_le_mul_right S (by omega)
    rw [hsplit, Nat.add_mod_right, Nat.mod_eq_of_lt (by omega)]
    congr 1
    have : k % 6 = k - 6 := by omega
    rw [this]

lemma ripple_swing_iff (p : GaitParameters) (hG : p.Gait = GaitType.Ripple)
    (hS : 1 ≤ p.StepNum) (l : Fin 6) (i : ℕ) :
    isSwing p l i = true ↔ l.val = (i % (6 * p.StepNum) / p.StepNum + 1) % 6 := by
  have h6S : 0 < 6 * p.StepNum := by omega
  have hu : i % (6 * p.StepNum) < 6 * p.StepNum := Nat.mod_lt _ h6S
  have hqr : i % (6 * p.StepNum)
      = p.StepNum * (i % (6 * p.StepNum) / p.StepNum) + i % (6 * p.StepNum) % p.StepNum :=
    (Nat.div_add_mod _ _).symm
  have hrS : i % (6 * p.StepNum) % p.StepNum < p.StepNum := Nat.mod_lt _ (by omega)
  have hq6 : i % (6 * p.StepNum) / p.StepNum < 6 :=
    Nat.div_lt_of_lt_mul (by omega)
  have hseq : seqLen p = 6 * p.StepNum := by
    simp [seqLen, hG, phaseGroups]
    omega
  have hst : stanceLen p = 5 * p.StepNum := by
    simp [stanceLen, hG, phaseGroups]
    omega
  have hoff : legOffset p l = l.val * p.StepNum := by simp [legOffset, hG]
  have hl6 : l.val < 6 := l.isLt
  have hlp : localPhase p l i
      = (i % (6 * p.StepNum) / p.StepNum + (6 - l.val)) % 6 * p.StepNum
        + i % (6 * p.StepNum) % p.StepNum := by
    rw [localPhase, hoff, hseq]
    have hsub : 6 * p.StepNum - l.val * p.StepNum = (6 - l.val) * p.StepNum := by
      rw [Nat.sub_mul]
    rw [hsub, Nat.add_mod i]
    have hmod2 : (6 - l.val) * p.StepNum % (6 * p.StepNum)
        = (6 - l.val) % 6 * p.StepNum := by
      have := ripple_mod_char p.StepNum (6 - l.val) 0 (by omega) (by omega)
      simpa using this
    rw [hmod2]
    have hrw : i % (6 * p.StepNum) + (6 - l.val) % 6 * p.StepNum
        = (i % (6 * p.StepNum) / p.StepNum + (6 - l.val) % 6) * p.StepNum
          + i % (6 * p.StepNum) % p.StepNum := by
      conv_lhs => rw [hqr]
      ring
    rw [hrw, ripple_mod_char p.StepNum _ _ hrS (by omega)]
    congr 2
    omega
  have hm6 : (i % (6 * p.StepNum) / p.StepNum + (6 - l.val)) % 6 < 6 :=
    Nat.mod_lt _ (by omega)
  have key : 5 * p.StepNum ≤ localPhase p l i
      ↔ (i % (6 * p.StepNum) / p.StepNum + (6 - l.val)) % 6 = 5 := by
    rw [hlp]
    constructor
    · intro h
      by_contra hne
      have hm4 : (i % (6 * p.StepNum) / p.StepNum + (6 - l.val)) % 6 ≤ 4 := by omega
      have := Nat.mul_le_mul_right p.StepNum hm4
      omega
    · intro h
      rw [h]
      omega
  simp only [isSwing, decide_eq_true_eq, hst, key]
  omega

lemma tripod_swing_iff (p : GaitParameters) (hG : p.Gait = GaitType.Tripod)
    (hS : 1 ≤ p.StepNum) (l : Fin 6) (i : ℕ) :
    isSwing p l i = true ↔ ¬ (l.val % 2 = 0 ↔ i % (2 * p.StepNum) < p.StepNum) := by
  rw [← tripod_stance_iff p hG hS l i]
  have := stance_iff_not_swing p l i
  tauto

lemma tripod_stance_count (p : GaitParameters) (hG : p.Gait = GaitType.Tripod)
    (hS : 1 ≤ p.StepNum) (i : ℕ) :
    (Finset.univ.filter fun l : Fin 6 => isStance p l i = true).card = 3 := by
  by_cases hc : i % (2 * p.StepNum) < p.StepNum
  · have he : (Finset.univ.filter fun l : Fin 6 => isStance p l i = true)
        = Finset.univ.filter fun l : Fin 6 => l.val % 2 = 0 := by
      apply Finset.filter_congr
      intro l _
      rw [tripod_stance_iff p hG hS l i]
      simp [hc]
    rw [he]
    decide
  · have he : (Finset.univ.filter fun l : Fin 6 => isStance p l i = true)
        = Finset.univ.filter fun l : Fin 6 => ¬ l.val % 2 = 0 := by
      apply Finset.filter_congr
      intro l _
      rw [tripod_stance_iff p hG hS l i]
      simp [hc]
    rw [he]
    decide

lemma tripod_swing_count (p : GaitParameters) (hG : p.Gait = GaitType.Tripod)
    (hS : 1 ≤ p.StepNum) (i : ℕ) :
    (Finset.univ.filter fun l : Fin 6 => isSwing p l i = true).card = 3 := by
  by_cases hc : i % (2 * p.StepNum) < p.StepNum
  · have he : (Finset.univ.filter fun l : Fin 6 => isSwing p l i = true)
        = Finset.univ.filter fun l : Fin 6 => ¬ l.val % 2 = 0 := by
      apply Finset.filter_congr
      intro l _
      rw [tripod_swing_iff p hG hS l i]
      simp [hc]
    rw [he]
    decide
  · have he : (Finset.univ.filter fun l : Fin 6 => isSwing p l i = true)
        = Finset.univ.filter fun l : Fin 6 => l.val % 2 = 0 := by
      apply Finset.filter_congr
      intro l _
      rw [tripod_swing_iff p hG hS l i]
      simp [hc]
    rw [he]
    decide

lemma ripple_swing_count (p : GaitParameters) (hG : p.Gait = GaitType.Ripple)
    (hS : 1 ≤ p.StepNum) (i : ℕ) :
    (Finset.univ.filter fun l : Fin 6 => isSwing p l i = true).card = 1 := by
  have hu6 : i % (6 * p.StepNum) < 6 * p.StepNum := Nat.mod_lt _ (by omega)
  have hq6 : i % (6 * p.StepNum) / p.StepNum < 6 :=
    Nat.div_lt_of_lt_mul (by omega)
  have hw : (i % (6 * p.StepNum) / p.StepNum + 1) % 6 < 6 := Nat.mod_lt _ (by omega)
  have he : (Finset.univ.filter fun l : Fin 6 => isSwing p l i = true)
      = {(⟨(i % (6 * p.StepNum) / p.StepNum + 1) % 6, hw⟩ : Fin 6)} := by
    ext l
    simp only [Finset.mem_filter, Finset.mem_univ, true_and, Finset.mem_singleton]
    rw [ripple_swing_iff p hG hS l i, Fin.ext_iff]
  rw [he, Finset.card_singleton]

lemma ripple_stance_count (p : GaitParameters) (hG : p.Gait = GaitType.Ripple)
    (hS : 1 ≤ p.StepNum) (i : ℕ) :
    (Finset.univ.filter fun l : Fin 6 => isStance p l i = true).card = 5 := by
  have he : (Finset.univ.filter fun l : Fin 6 => isStance p l i = true)
      = Finset.univ \ (Finset.univ.filter fun l : Fin 6 => isSwing p l i = true) := by
    rw [← Finset.filter_not]
    apply Finset.filter_congr
    intro l _
    exact stance_iff_not_swing p l i
  rw [he, Finset.card_sdiff (Finset.filter_subset _ _), ripple_swing_count p hG hS i]
  decide

lemma abs_diff_le_sum (a b : ℝ) (ha : 0 < a) (hb : 0 < b) : |a - b| ≤ a + b := by
  rcases abs_cases (a - b) with h | h <;> rw [h.1] <;> linarith

lemma atan2_zero_of_nonneg (x : ℝ) (hx : 0 ≤ x) : atan2 0 x = 0 := by
  have hx' : (⟨x, 0⟩ : ℂ) = (x : ℂ) := by
    apply Complex.ext <;> simp
  rw [atan2, hx']
  exact Complex.arg_ofReal_of_nonneg hx

lemma hr_example1 : horizontalReach ⟨3, 5, 7⟩ ⟨8, 0, -2⟩ = 5 := by
  show Real.sqrt ((8 : ℝ) ^ 2 + (0 : ℝ) ^ 2) - 3 = 5
  rw [show ((8 : ℝ) ^ 2 + (0 : ℝ) ^ 2) = 8 ^ 2 by norm_num,
    Real.sqrt_sq (by norm_num : (0:ℝ) ≤ 8)]
  norm_num

lemma pd_example1 : planarDistance ⟨3, 5, 7⟩ ⟨8, 0, -2⟩ = Real.sqrt 29 := by
  rw [planarDistance, hr_example1]
  norm_num

lemma sqrt29_ge : (2 : ℝ) ≤ Real.sqrt 29 := by
  have h := Real.sq_sqrt (by norm_num : (29:ℝ) ≥ 0)
  nlinarith [Real.sqrt_nonneg (29 : ℝ)]

lemma sqrt29_le : Real.sqrt 29 ≤ 12 := by
  have h := Real.sq_sqrt (by norm_num : (29:ℝ) ≥ 0)
  nlinarith [Real.sqrt_nonneg (29 : ℝ)]

lemma hr_example2 : horizontalReach ⟨3, 5, 7⟩ ⟨20, 0, 0⟩ = 17 := by
  show Real.sqrt ((20 : ℝ) ^ 2 + (0 : ℝ) ^ 2) - 3 = 17
  rw [show ((20 : ℝ) ^ 2 + (0 : ℝ) ^ 2) = 20 ^ 2 by norm_num,
    Real.sqrt_sq (by norm_num : (0:ℝ) ≤ 20)]
  norm_num

lemma pd_example2 : planarDistance ⟨3, 5, 7⟩ ⟨20, 0, 0⟩ = 17 := by
  rw [planarDistance, hr_example2]
  rw [show ((17 : ℝ) ^ 2 + (0 : ℝ) ^ 2) = 17 ^ 2 by norm_num,
    Real.sqrt_sq (by norm_num : (0:ℝ) ≤ 17)]

lemma unreachable_example2 : legIkUnreachable ⟨3, 5, 7⟩ ⟨20, 0, 0⟩ := by
  rw [legIkUnreachable, outOfReach, pd_example2]
  left
  norm_num

lemma clamp_example2 : clampPD ⟨3, 5, 7⟩ (planarDistance ⟨3, 5, 7⟩ ⟨20, 0, 0⟩) = 12 := by
  rw [pd_example2, clampPD]
  rw [if_pos (by norm_num : (5 : ℝ) + 7 < 17)]
  norm_num

lemma ik_example2 : solveLegIK ⟨3, 5, 7⟩ ⟨20, 0, 0⟩ = ⟨0, 0, 0⟩ := by
  have hA : cosBetaArg ⟨3, 5, 7⟩ (clampPD ⟨3, 5, 7⟩ (planarDistance ⟨3, 5, 7⟩ ⟨20, 0, 0⟩)) = 1 := by
    rw [clamp_example2, cosBetaArg]
    norm_num
  have hB : cosGammaArg ⟨3, 5, 7⟩ (clampPD ⟨3, 5, 7⟩ (planarDistance ⟨3, 5, 7⟩ ⟨20, 0, 0⟩)) = -1 := by
    rw [clamp_example2, cosGammaArg]
    norm_num
  ext
  · show atan2 (0 : ℝ) 20 = 0
    exact atan2_zero_of_nonneg 20 (by norm_num)
  · show atan2 (0 : ℝ) (horizontalReach ⟨3, 5, 7⟩ ⟨20, 0, 0⟩)
        + Real.arccos (cosBetaArg ⟨3, 5, 7⟩ (clampPD ⟨3, 5, 7⟩ (planarDistance ⟨3, 5, 7⟩ ⟨20, 0, 0⟩))) = 0
    rw [hr_example2, hA, Real.arccos_one, atan2_zero_of_nonneg 17 (by norm_num)]
    norm_num
  · show Real.arccos (cosGammaArg ⟨3, 5, 7⟩ (clampPD ⟨3, 5, 7⟩ (planarDistance ⟨3, 5, 7⟩ ⟨20, 0, 0⟩)))
        - Real.pi = 0
    rw [hB, Real.arccos_neg_one]
    ring

lemma fk_example2 : legFK ⟨3, 5, 7⟩ (solveLegIK ⟨3, 5, 7⟩ ⟨20, 0, 0⟩) = ⟨15, 0, 0⟩ := by
  rw [ik_example2]
  ext
  · show ((3 : ℝ) + 5 * Real.cos 0 + 7 * Real.cos (0 + 0)) * Real.cos 0 = 15
    rw [add_zero, Real.cos_zero]
    norm_num
  · show ((3 : ℝ) + 5 * Real.cos 0 + 7 * Real.cos (0 + 0)) * Real.sin 0 = 0
    rw [add_zero, Real.sin_zero]
    norm_num
  · show (5 : ℝ) * Real.sin 0 + 7 * Real.sin (0 + 0) = 0
    rw [add_zero, Real.sin_zero]
    norm_num

lemma dist_example2 :
    dist3 (legFK ⟨3, 5, 7⟩ (solveLegIK ⟨3, 5, 7⟩ ⟨20, 0, 0⟩)) ⟨0, 0, 0⟩ = 15 := by
  rw [fk_example2, dist3]
  show Real.sqrt (((15 : ℝ) - 0) ^ 2 + ((0 : ℝ) - 0) ^ 2 + ((0 : ℝ) - 0) ^ 2) = 15
  rw [show (((15 : ℝ) - 0) ^ 2 + ((0 : ℝ) - 0) ^ 2 + ((0 : ℝ) - 0) ^ 2) = 15 ^ 2 by norm_num,
    Real.sqrt_sq (by norm_num : (0:ℝ) ≤ 15)]

/-- C1: for every local foot target the single-leg analytic IK computes
`alpha = atan2(y, x)`, the horizontal reach, the planar distance, clamps an
out-of-annulus planar distance to the nearest bound while surfacing the
`IkUnreachable` condition, and always returns the knee-down law-of-cosines
branch (`gamma ≤ 0`, never the knee-up branch); at lengths `(3, 5, 7)` and
target `(8, 0, -2)` it yields `alpha = 0`, `horizontalReach = 5`,
`planarDistance = √29 ∈ [2, 12]`, reachable, with the unique knee-down
solution given by the stated formulas. -/
theorem C1_single_leg_analytic_ik :
    (∀ (L : Lengths) (p : Point3), 0 < L.femur → 0 < L.tibia →
      (solveLegIK L p).alpha = atan2 p.y p.x ∧
      (solveLegIK L p).beta
        = atan2 p.z (horizontalReach L p)
          + Real.arccos (cosBetaArg L (clampPD L (planarDistance L p))) ∧
      (solveLegIK L p).gamma
        = Real.arccos (cosGammaArg L (clampPD L (planarDistance L p))) - Real.pi ∧
      (solveLegIK L p).gamma ≤ 0 ∧
      (legIkUnreachable L p ↔ outOfReach L (planarDistance L p)) ∧
      (L.femur + L.tibia < planarDistance L p →
        clampPD L (planarDistance L p) = L.femur + L.tibia) ∧
      (planarDistance L p < |L.femur - L.tibia| →
        clampPD L (planarDistance L p) = |L.femur - L.tibia|) ∧
      (¬ legIkUnreachable L p → clampPD L (planarDistance L p) = planarDistance L p)) ∧
    ((solveLegIK ⟨3, 5, 7⟩ ⟨8, 0, -2⟩).alpha = 0 ∧
      horizontalReach ⟨3, 5, 7⟩ ⟨8, 0, -2⟩ = 5 ∧
      planarDistance ⟨3, 5, 7⟩ ⟨8, 0, -2⟩ = Real.sqrt 29 ∧
      2 ≤ Real.sqrt 29 ∧ Real.sqrt 29 ≤ 12 ∧
      ¬ legIkUnreachable ⟨3, 5, 7⟩ ⟨8, 0, -2⟩) := by
  constructor
  · intro L p hF hT
    refine ⟨rfl, rfl, rfl, ?_, Iff.rfl, ?_, ?_, ?_⟩
    · show Real.arccos (cosGammaArg L (clampPD L (planarDistance L p))) - Real.pi ≤ 0
      linarith [Real.arccos_le_pi (cosGammaArg L (clampPD L (planarDistance L p)))]
    · intro h
      rw [clampPD, if_pos h]
    · intro h
      have habs := abs_diff_le_sum L.femur L.tibia hF hT
      rw [clampPD, if_neg (by linarith), if_pos h]
    · intro h
      rw [legIkUnreachable, outOfReach] at h
      push_neg at h
      exact clampPD_of_reachable L _ h.2 h.1
  · refine ⟨?_, hr_example1, pd_example1, sqrt29_ge, sqrt29_le, ?_⟩
    · show atan2 (0 : ℝ) 8 = 0
      exact atan2_zero_of_nonneg 8 (by norm_num)
    · rw [legIkUnreachable, outOfReach, pd_example1]
      rintro (h | h)
      · have := sqrt29_le
        norm_num at h
        linarith
      · have := sqrt29_ge
        norm_num at h
        linarith

/-- Closed witness for C1: at lengths `(3, 5, 7)` and the unreachable target
`(20, 0, 0)`, the clamping branch of the theorem fires and the planar
distance is clamped to the upper bound `femur + tibia = 12`. -/
theorem C1_witness :
    clampPD ⟨3, 5, 7⟩ (planarDistance ⟨3, 5, 7⟩ ⟨20, 0, 0⟩) = (5 : ℝ) + 7 := by
  have h := C1_single_leg_analytic_ik.1 ⟨3, 5, 7⟩ ⟨20, 0, 0⟩
    (by norm_num) (by norm_num)
  exact h.2.2.2.2.2.1 (by rw [pd_example2]; norm_num)

/-- C2 counterexample: at lengths `(3, 5, 7)` the local target `(20, 0, 0)`
is unreachable and clamped to the bound 12, yet the resulting foot sits at
distance 15 — not 12 — from the mount (the origin of the mount-local
frame): the clamped foot distance from the mount does not equal the clamped
annulus bound. -/
theorem C2_counterexample :
    legIkUnreachable ⟨3, 5, 7⟩ ⟨20, 0, 0⟩ ∧
    clampPD ⟨3, 5, 7⟩ (planarDistance ⟨3, 5, 7⟩ ⟨20, 0, 0⟩) = 12 ∧
    dist3 (legFK ⟨3, 5, 7⟩ (solveLegIK ⟨3, 5, 7⟩ ⟨20, 0, 0⟩)) ⟨0, 0, 0⟩ = 15 ∧
    dist3 (legFK ⟨3, 5, 7⟩ (solveLegIK ⟨3, 5, 7⟩ ⟨20, 0, 0⟩)) ⟨0, 0, 0⟩
      ≠ clampPD ⟨3, 5, 7⟩ (planarDistance ⟨3, 5, 7⟩ ⟨20, 0, 0⟩) := by
  refine ⟨unreachable_example2, clamp_example2, dist_example2, ?_⟩
  rw [dist_example2, clamp_example2]
  norm_num

/-- C2 (amended): solving the body-pose IK and then applying forward
kinematics reproduces every requested foot anchor exactly whenever the
per-leg local target lies inside the reachable annulus; and for every
unreachable target the clamped solution's foot lies at a distance from the
coxa-femur joint (not the mount) exactly equal to the clamped annulus
bound. -/
theorem C2_roundtrip_and_clamped_distance :
    (∀ (st : Hexapod) (rot trans : Point3), 0 < st.lengths.femur → 0 < st.lengths.tibia →
      ∀ l : Fin 6,
        |st.lengths.femur - st.lengths.tibia|
            ≤ planarDistance st.lengths (ikLocalTarget st rot trans l) →
        planarDistance st.lengths (ikLocalTarget st rot trans l)
            ≤ st.lengths.femur + st.lengths.tibia →
        footWorld st rot trans l (solveIKAngles st rot trans l) = anchor st l) ∧
    (∀ (L : Lengths) (tgt : Point3), 0 < L.femur → 0 < L.tibia →
      legIkUnreachable L tgt →
        dist3 (legFK L (solveLegIK L tgt)) (coxaJoint L (solveLegIK L tgt))
          = clampPD L (planarDistance L tgt) ∧
        (clampPD L (planarDistance L tgt) = L.femur + L.tibia ∨
          clampPD L (planarDistance L tgt) = |L.femur - L.tibia|)) := by
  constructor
  · intro st rot trans hF hT l hlo hhi
    show mountToWorld rot trans (mountPos st.dims l) (mountYaw l)
        (legFK st.lengths (solveLegIK st.lengths (ikLocalTarget st rot trans l))) = anchor st l
    rw [legFK_solveLegIK st.lengths _ hF hT hlo hhi]
    exact mountToWorld_worldToMountLocal rot trans (mountPos st.dims l) (mountYaw l) (anchor st l)
  · intro L tgt hF hT hun
    refine ⟨footDist_from_knee L tgt hF hT, ?_⟩
    rcases hun with h | h
    · left
      rw [clampPD, if_pos h]
    · right
      have habs := abs_diff_le_sum L.femur L.tibia hF hT
      rw [clampPD, if_neg (by linarith), if_pos h]

/-- Closed witness for C2 (amended): the unreachable target `(20, 0, 0)` at
lengths `(3, 5, 7)` produces a foot at distance exactly `clampPD = 12` from
the coxa-femur joint. -/
theorem C2_witness :
    dist3 (legFK ⟨3, 5, 7⟩ (solveLegIK ⟨3, 5, 7⟩ ⟨20, 0, 0⟩))
        (coxaJoint ⟨3, 5, 7⟩ (solveLegIK ⟨3, 5, 7⟩ ⟨20, 0, 0⟩))
      = clampPD ⟨3, 5, 7⟩ (planarDistance ⟨3, 5, 7⟩ ⟨20, 0, 0⟩) :=
  (C2_roundtrip_and_clamped_distance.2 ⟨3, 5, 7⟩ ⟨20, 0, 0⟩
    (by norm_num) (by norm_num) unreachable_example2).1

lemma validGait_exampleTripod : validGait exampleTripodParams := by
  refine ⟨?_, ?_, ?_, ?_, ?_, ?_⟩ <;> norm_num [exampleTripodParams]

lemma validGait_exampleRipple : validGait exampleRippleParams := by
  refine ⟨?_, ?_, ?_, ?_, ?_, ?_⟩ <;> norm_num [exampleRippleParams]

/-- C3: at every sample index of a valid gait, a Tripod sequence has exactly
three legs in stance and three in swing, and a Ripple sequence has exactly
one leg in swing (five planted). -/
theorem C3_phase_counts :
    ∀ (p : GaitParameters) (i : ℕ), validGait p →
      (p.Gait = GaitType.Tripod →
        (Finset.univ.filter fun l : Fin 6 => isStance p l i = true).card = 3 ∧
        (Finset.univ.filter fun l : Fin 6 => isSwing p l i = true).card = 3) ∧
      (p.Gait = GaitType.Ripple →
        (Finset.univ.filter fun l : Fin 6 => isSwing p l i = true).card = 1 ∧
        (Finset.univ.filter fun l : Fin 6 => isStance p l i = true).card = 5) := by
  intro p i hv
  exact ⟨fun hG => ⟨tripod_stance_count p hG hv.1 i, tripod_swing_count p hG hv.1 i⟩,
    fun hG => ⟨ripple_swing_count p hG hv.1 i, ripple_stance_count p hG hv.1 i⟩⟩

/-- Closed witness for C3 at concrete Tripod and Ripple parameter sets. -/
theorem C3_witness :
    validGait exampleTripodParams ∧ validGait exampleRippleParams ∧
    (Finset.univ.filter fun l : Fin 6 => isStance exampleTripodParams l 3 = true).card = 3 ∧
    (Finset.univ.filter fun l : Fin 6 => isSwing exampleRippleParams l 7 = true).card = 1 :=
  ⟨validGait_exampleTripod, validGait_exampleRipple,
    ((C3_phase_counts exampleTripodParams 3 validGait_exampleTripod).1 rfl).1,
    ((C3_phase_counts exampleRippleParams 7 validGait_exampleRipple).2 rfl).1⟩

/-- C4: the generated walking sequence has six per-leg sequences of common
length `StepNum × phaseGroups`, with phaseGroups 2 for Tripod and 6 for
Ripple; for StepNum = 10 under Tripod the length is 20, legs {0,2,4} are in
stance exactly over indices [0,10) and legs {1,3,5} over [10,20). -/
theorem C4_sequence_lengths :
    (∀ (p : GaitParameters) (L : Lengths) (l : Fin 6),
        (walkingSeq p L l).length = p.StepNum * phaseGroups p.Gait) ∧
    phaseGroups GaitType.Tripod = 2 ∧ phaseGroups GaitType.Ripple = 6 ∧
    seqLen exampleTripodParams = 20 ∧
    (∀ i : ℕ, i < 10 → ∀ l : Fin 6,
      (l.val % 2 = 0 → isStance exampleTripodParams l i = true) ∧
      (l.val % 2 = 1 → isSwing exampleTripodParams l i = true)) ∧
    (∀ i : ℕ, 10 ≤ i → i < 20 → ∀ l : Fin 6,
      (l.val % 2 = 1 → isStance exampleTripodParams l i = true) ∧
      (l.val % 2 = 0 → isSwing exampleTripodParams l i = true)) := by
  have hS : (1 : ℕ) ≤ exampleTripodParams.StepNum := by norm_num [exampleTripodParams]
  have h10 : exampleTripodParams.StepNum = 10 := rfl
  refine ⟨?_, rfl, rfl, by simp [seqLen, exampleTripodParams, phaseGroups], ?_, ?_⟩
  · intro p L l
    simp [walkingSeq, seqLen]
  · intro i hi l
    constructor
    · intro hl
      rw [tripod_stance_iff exampleTripodParams rfl hS l i, h10]
      constructor <;> intro h' <;> omega
    · intro hl
      rw [tripod_swing_iff exampleTripodParams rfl hS l i, h10]
      intro hif
      have h0 := hif.mpr (by omega)
      omega
  · intro i hi1 hi2 l
    constructor
    · intro hl
      rw [tripod_stance_iff exampleTripodParams rfl hS l i, h10]
      constructor <;> intro h' <;> omega
    · intro hl
      rw [tripod_swing_iff exampleTripodParams rfl hS l i, h10]
      intro hif
      have h0 := hif.mp hl
      omega

/-- Closed witness for C4 at concrete indices and legs. -/
theorem C4_witness :
    (walkingSeq exampleTripodParams ⟨2, 4, 5⟩ 0).length = 20 ∧
    isStance exampleTripodParams 0 3 = true ∧
    isSwing exampleTripodParams 1 3 = true ∧
    isStance exampleTripodParams 1 15 = true ∧
    isSwing exampleTripodParams 0 15 = true := by
  refine ⟨?_, ?_, ?_, ?_, ?_⟩
  · rw [C4_sequence_lengths.1 exampleTripodParams ⟨2, 4, 5⟩ 0]
    simp [exampleTripodParams, phaseGroups]
  · exact (C4_sequence_lengths.2.2.2.2.1 3 (by norm_num) 0).1 rfl
  · exact (C4_sequence_lengths.2.2.2.2.1 3 (by norm_num) 1).2 rfl
  · exact (C4_sequence_lengths.2.2.2.2.2 15 (by norm_num) (by norm_num) 1).1 rfl
  · exact (C4_sequence_lengths.2.2.2.2.2 15 (by norm_num) (by norm_num) 0).2 rfl

/-- C5: playback is cyclic — applying frame `t + length` produces the same
state as frame `t`, because the index is reduced modulo the sequence length
inside the operation. -/
theorem C5_playback_cyclic :
    ∀ (st : Hexapod) (ws : Fin 6 → List LegAngles) (t n : ℕ),
      st.walking = some ws → (∀ l, (ws l).length = n) →
      set_pose_from_walking_sequence st (t + n) = set_pose_from_walking_sequence st t := by
  intro st ws t n hwalk hlen
  simp only [set_pose_from_walking_sequence, hwalk]
  have hfun : (fun l => (ws l).getD ((t + n) % (ws l).length) (st.legs l))
      = fun l => (ws l).getD (t % (ws l).length) (st.legs l) := by
    funext l
    rw [hlen l, Nat.add_mod_right]
  rw [hfun]

/-- Closed witness for C5 on a concrete two-frame sequence. -/
theorem C5_witness :
    set_pose_from_walking_sequence exampleSeqState (1 + 2)
      = set_pose_from_walking_sequence exampleSeqState 1 :=
  C5_playback_cyclic exampleSeqState exampleWS 1 2 rfl fun _ => rfl

/-- C6: reversing the travel direction negates every hip-sweep trajectory
sample for every leg while leaving every lift trajectory sample unchanged. -/
theorem C6_direction_reversal :
    ∀ (p : GaitParameters) (l : Fin 6) (i : ℕ),
      hipSweepVal (reverseDirection p) l i = -(hipSweepVal p l i) ∧
      liftVal (reverseDirection p) l i = liftVal p l i := by
  intro p l i
  constructor
  · show ((-p.Direction : ℤ) : ℝ) * rotSign p l * baseSweep p l i
        = -(((p.Direction : ℤ) : ℝ) * rotSign p l * baseSweep p l i)
    push_cast
    ring
  · rfl

/-- C7: `updateDimensions` rejects any out-of-range value leaving the prior
state and all derived geometry unchanged with a `false` return, and commits
the six new dimensions returning `true` otherwise. -/
theorem C7_update_dimensions :
    ∀ (st : Hexapod) (f m s c fe t : ℝ),
      (¬ (validDim f ∧ validDim m ∧ validDim s ∧ validDim c ∧ validDim fe ∧ validDim t) →
        update_dimensions st f m s c fe t = (st, false) ∧
        bodyVertices (update_dimensions st f m s c fe t).1.dims = bodyVertices st.dims ∧
        bodyHead (update_dimensions st f m s c fe t).1.dims = bodyHead st.dims ∧
        mountPos (update_dimensions st f m s c fe t).1.dims = mountPos st.dims ∧
        (update_dimensions st f m s c fe t).1.lengths = st.lengths) ∧
      ((validDim f ∧ validDim m ∧ validDim s ∧ validDim c ∧ validDim fe ∧ validDim t) →
        update_dimensions st f m s c fe t
          = ({ st with dims := ⟨f, m, s⟩, lengths := ⟨c, fe, t⟩ }, true)) := by
  intro st f m s c fe t
  constructor
  · intro h
    simp [update_dimensions, if_neg h]
  · intro h
    simp [update_dimensions, if_pos h]

/-- Closed witness for C7: a front dimension of 0 is rejected with the state
unchanged; in-range dimensions are committed. -/
theorem C7_witness :
    update_dimensions initHexapod 0 4 3 2 4 5 = (initHexapod, false) ∧
    update_dimensions initHexapod 3 4 3 2 4 5
      = ({ initHexapod with dims := ⟨3, 4, 3⟩, lengths := ⟨2, 4, 5⟩ }, true) := by
  constructor
  · exact ((C7_update_dimensions initHexapod 0 4 3 2 4 5).1 (by
      rintro ⟨⟨h1, -⟩, -⟩
      norm_num at h1)).1
  · exact (C7_update_dimensions initHexapod 3 4 3 2 4 5).2
      ⟨⟨by norm_num, by norm_num⟩, ⟨by norm_num, by norm_num⟩, ⟨by norm_num, by norm_num⟩,
        ⟨by norm_num, by norm_num⟩, ⟨by norm_num, by norm_num⟩, ⟨by norm_num, by norm_num⟩⟩

/-- C8: `solveIK` is atomic across the six legs — a well-formed request
updates all six legs together (each leg set to its solved or clamped
single-leg solution), and a malformed (non-finite) request fails as a whole
with the prior state fully preserved. -/
theorem C8_solve_ik_atomic :
    ∀ (st : Hexapod) (r : IkRaw),
      (r.wellFormed = true →
        solve_ik st r = ({ st with legs := solveIKAngles st r.rot r.trans }, none) ∧
        ∀ l, (solve_ik st r).1.legs l
          = solveLegIK st.lengths (ikLocalTarget st r.rot r.trans l)) ∧
      (¬ r.wellFormed = true →
        solve_ik st r = (st, some EngineError.MalformedInput)) := by
  intro st r
  constructor
  · intro h
    constructor
    · simp only [solve_ik, if_pos h]
    · intro l
      simp only [solve_ik, if_pos h, solveIKAngles]
  · intro h
    simp only [solve_ik, if_neg h]

/-- Closed witness for C8: a request with a non-finite roll fails whole with
the state preserved, and an all-finite request succeeds. -/
theorem C8_witness :
    solve_ik initHexapod exampleBadRaw = (initHexapod, some EngineError.MalformedInput) ∧
    (solve_ik initHexapod exampleGoodRaw).2 = none := by
  constructor
  · exact (C8_solve_ik_atomic initHexapod exampleBadRaw).2 (by
      simp [exampleBadRaw, IkRaw.wellFormed, NumVal.isFin])
  · rw [((C8_solve_ik_atomic initHexapod exampleGoodRaw).1 (by
      simp [exampleGoodRaw, IkRaw.wellFormed, NumVal.isFin])).1]

/-- C9: `generateWalkingSequence` fails with `InvalidGaitParameters` exactly
when `StepNum < 1`, `Speed ≤ 0`, or `HipSwing`/`LiftSwing` is outside its
slider bounds `[10, 40]` (leaving the state unchanged), and on a valid set
replaces the stored sequence and resets the cursor to 0. -/
theorem C9_generate_sequence_validation :
    ∀ (st : Hexapod) (p : GaitParameters),
      ((generate_walking_sequence st p).2 = some EngineError.InvalidGaitParameters
        ↔ (p.StepNum < 1 ∨ p.Speed ≤ 0 ∨ p.HipSwing < 10 ∨ 40 < p.HipSwing
            ∨ p.LiftSwing < 10 ∨ 40 < p.LiftSwing)) ∧
      (¬ validGait p →
        generate_walking_sequence st p = (st, some EngineError.InvalidGaitParameters)) ∧
      (validGait p →
        (generate_walking_sequence st p).1.walking = some (walkingSeq p st.lengths) ∧
        (generate_walking_sequence st p).1.cursor = 0 ∧
        (generate_walking_sequence st p).2 = none) := by
  intro st p
  have hiff : ¬ validGait p ↔ (p.StepNum < 1 ∨ p.Speed ≤ 0 ∨ p.HipSwing < 10 ∨ 40 < p.HipSwing
      ∨ p.LiftSwing < 10 ∨ 40 < p.LiftSwing) := by
    constructor
    · intro h
      by_contra hno
      push_neg at hno
      obtain ⟨h1, h2, h3, h4, h5, h6⟩ := hno
      exact h ⟨h1, h2, h3, h4, h5, h6⟩
    · rintro (h | h | h | h | h | h) hv
      · have := hv.1
        omega
      · linarith [hv.2.1]
      · linarith [hv.2.2.1]
      · linarith [hv.2.2.2.1]
      · linarith [hv.2.2.2.2.1]
      · linarith [hv.2.2.2.2.2]
  refine ⟨?_, ?_, ?_⟩
  · constructor
    · intro h2
      by_contra hno
      have hv : validGait p := by
        by_contra hnv
        exact hno (hiff.mp hnv)
      simp only [generate_walking_sequence, if_pos hv] at h2
      exact Option.noConfusion h2
    · intro hd
      simp only [generate_walking_sequence, if_neg (hiff.mpr hd)]
  · intro hnv
    simp only [generate_walking_sequence, if_neg hnv]
  · intro hv
    simp [generate_walking_sequence, if_pos hv]

/-- Closed witness for C9: the default Tripod parameters are accepted and
reset the cursor; a StepNum of 0 is rejected with the state preserved. -/
theorem C9_witness :
    (generate_walking_sequence initHexapod exampleTripodParams).1.cursor = 0 ∧
    (generate_walking_sequence initHexapod exampleTripodParams).1.walking
      = some (walkingSeq exampleTripodParams initHexapod.lengths) ∧
    generate_walking_sequence initHexapod exampleBadGaitParams
      = (initHexapod, some EngineError.InvalidGaitParameters) := by
  have h := C9_generate_sequence_validation initHexapod exampleTripodParams
  have hv := validGait_exampleTripod
  refine ⟨(h.2.2 hv).2.1, (h.2.2 hv).1, ?_⟩
  refine (C9_generate_sequence_validation initHexapod exampleBadGaitParams).2.1 ?_
  intro hvv
  have h1 := hvv.1
  have h0 : exampleBadGaitParams.StepNum = 0 := by simp [exampleBadGaitParams]
  omega

/-- C10: `update_leg_pattern` returns a boolean success indicator that is
true exactly when the supplied triple is valid, in which case the triple has
been applied uniformly to all six legs; on a false return the prior state is
fully preserved. -/
theorem C10_update_leg_pattern_indicator :
    ∀ (st : Hexapod) (a b c : ℝ),
      ((update_leg_pattern st a b c).2 = true
        ↔ validAngle a ∧ validAngle b ∧ validAngle c) ∧
      ((update_leg_pattern st a b c).2 = true →
        ∀ l, (update_leg_pattern st a b c).1.legs l = ⟨a, b, c⟩) ∧
      ((update_leg_pattern st a b c).2 = false →
        (update_leg_pattern st a b c).1 = st) := by
  intro st a b c
  by_cases h : validAngle a ∧ validAngle b ∧ validAngle c
  · refine ⟨?_, ?_, ?_⟩
    · simp only [update_leg_pattern, if_pos h]
      simpa using h
    · intro _ l
      simp only [update_leg_pattern, if_pos h]
    · intro hfalse
      simp only [update_leg_pattern, if_pos h] at hfalse
      exact Bool.noConfusion hfalse
  · refine ⟨?_, ?_, ?_⟩
    · simp only [update_leg_pattern, if_neg h]
      simpa using h
    · intro htrue
      simp only [update_leg_pattern, if_neg h] at htrue
      exact Bool.noConfusion htrue
    · intro _
      simp only [update_leg_pattern, if_neg h]

/-- Closed witness for C10: a valid triple is applied to every leg with a
true return; an out-of-range beta yields false with the state unchanged. -/
theorem C10_witness :
    (update_leg_pattern initHexapod 10 20 30).2 = true ∧
    (update_leg_pattern initHexapod 10 20 30).1.legs 0 = ⟨10, 20, 30⟩ ∧
    (update_leg_pattern initHexapod 10 200 30).2 = false ∧
    (update_leg_pattern initHexapod 10 200 30).1 = initHexapod := by
  have h := C10_update_leg_pattern_indicator initHexapod 10 20 30
  have hval : validAngle (10 : ℝ) ∧ validAngle (20 : ℝ) ∧ validAngle (30 : ℝ) :=
    ⟨⟨by norm_num, by norm_num⟩, ⟨by norm_num, by norm_num⟩, ⟨by norm_num, by norm_num⟩⟩
  have htrue := h.1.mpr hval
  have h2 := C10_update_leg_pattern_indicator initHexapod 10 200 30
  have hnval : ¬ (validAngle (10 : ℝ) ∧ validAngle (200 : ℝ) ∧ validAngle (30 : ℝ)) := by
    rintro ⟨-, ⟨-, hb⟩, -⟩
    norm_num at hb
  have hfalse : (update_leg_pattern initHexapod 10 200 30).2 = false := by
    rcases Bool.eq_false_or_eq_true (update_leg_pattern initHexapod 10 200 30).2 with ht | hf
    · exact absurd (h2.1.mp ht) hnval
    · exact hf
  exact ⟨htrue, h.2.1 htrue 0, hfalse, h2.2.2 hfalse⟩

end Hexa

end

